import Mathlib

/-!
Shallow embedding of `src/model_router.py` (AIModelRouter): weighted endpoint
selection, per-endpoint circuit breaker, retry/backoff dispatch loop, metrics
aggregation, response cache, and the health-check sweep.

Conventions of the embedding:
* Python dicts keyed by endpoint name become total functions `String → α`
  (all accesses in the source are at configured endpoint names;
  `defaultdict(int)` / `defaultdict(float)` default to 0).
* `time.time()` values, latencies and weights-as-reals are rationals `ℚ`.
* Network I/O (`_make_http_request`, `_make_websocket_request`,
  `_check_endpoint_health`) and the random source (`random.uniform`,
  `random.choice`) are oracles passed in explicitly (`Env`, probe functions):
  each transport invocation consumes the next oracle value.
* The SHA-256 cache fingerprint `_get_cache_key` is modelled as the hashed
  content itself (model_type, payload bytes, sorted metadata items): equal
  inputs give equal keys, which is the property the router relies on.
-/

namespace ModelRouter

/-- `'http' or 'websocket'` — the `type` field of an endpoint. -/
inductive Protocol where
  | http
  | websocket
deriving DecidableEq, Repr

/-- `EndpointConfig` (pydantic model): configuration for a single endpoint.
`weight` is a non-negative integer per the data model. -/
structure EndpointConfig where
  name : String
  url : String
  protocol : Protocol
  weight : Nat
  timeout : ℚ := 10
deriving DecidableEq, Repr

/-- `RetryConfig` (defaults `max_attempts=3`, `backoff_factor=2.0`). -/
structure RetryConfig where
  max_attempts : Nat := 3
  backoff_factor : ℚ := 2
deriving DecidableEq, Repr

/-- `CircuitBreakerConfig` (defaults `failure_threshold=5`, `recovery_timeout=30`). -/
structure CircuitBreakerConfig where
  failure_threshold : Nat := 5
  recovery_timeout : Nat := 30
deriving DecidableEq, Repr

/-- `AIModelRouterConfig`: endpoints plus retry and circuit-breaker policies. -/
structure AIModelRouterConfig where
  endpoints : List EndpointConfig
  retry_config : RetryConfig := {}
  circuit_breaker : CircuitBreakerConfig := {}
deriving DecidableEq, Repr

/-- The circuit-state strings `"closed"`, `"open"`, `"half-open"` of the source. -/
inductive CircuitState where
  | closed
  | «open»
  | halfOpen
deriving DecidableEq, Repr

/-- Provider responses and the router's structured error results are JSON
objects; the claims only inspect string-valued fields, so a response is an
association list of string fields. -/
abbrev Response := List (String × String)

/-- Request metadata `Dict[str, Any]` (string-valued fields suffice for the
claims: `endpoint_pref` holds an endpoint name). -/
abbrev Metadata := List (String × String)

/-- Cache fingerprint: the content hashed by `_get_cache_key`
(`model_type`, the payload bytes, and — when metadata is non-empty —
its sorted items). -/
structure CacheKey where
  model_type : String
  data : List Nat
  meta_items : Option (List (String × String))
deriving DecidableEq, Repr

/-- Insertion into a list sorted by key, then value (mirrors Python's
`sorted(metadata.items())` lexicographic order). -/
def insertItem (x : String × String) : List (String × String) → List (String × String)
  | [] => [x]
  | y :: ys =>
    if x.1 < y.1 ∨ (x.1 = y.1 ∧ x.2 ≤ y.2) then x :: y :: ys else y :: insertItem x ys

/-- `sorted(metadata.items())`. -/
def sortItems (l : List (String × String)) : List (String × String) :=
  l.foldr insertItem []

/-- `_get_cache_key`: the metadata items enter the hash only when the metadata
dict is truthy (`if metadata:` — both `None` and `{}` skip it). -/
def get_cache_key (model_type : String) (data : List Nat) (metadata : Option Metadata) :
    CacheKey :=
  { model_type := model_type
    data := data
    meta_items :=
      match metadata with
      | none => none
      | some m => if m.isEmpty then none else some (sortItems m) }

/-- `self.cache[cache_key] = {"timestamp": ..., "response": ...}`. -/
structure CacheEntry where
  timestamp : ℚ
  response : Response
deriving DecidableEq, Repr

/-- Per-endpoint metrics record. -/
structure Metrics where
  request_count : Nat
  success_count : Nat
  error_count : Nat
  total_latency : ℚ
  average_latency : ℚ
deriving DecidableEq, Repr

/-- The initial metrics entry created in `__init__`. -/
def metrics_init : Metrics :=
  { request_count := 0, success_count := 0, error_count := 0
    total_latency := 0, average_latency := 0 }

/-- The router's mutable state: circuit-breaker dicts, cache and metrics. -/
structure RouterState where
  circuit_states : String → CircuitState
  failure_counts : String → Nat
  last_failure_time : String → ℚ
  cache : CacheKey → Option CacheEntry
  metrics : String → Metrics

/-- Pointwise update of a name-keyed dict. -/
def setEntry {α : Type} (f : String → α) (name : String) (v : α) : String → α :=
  fun n => if n = name then v else f n

/-- The state built in `__init__`: every circuit `"closed"`, failure counts and
last-failure times 0 (`defaultdict`), empty cache, zeroed metrics. -/
def init_state : RouterState :=
  { circuit_states := fun _ => CircuitState.closed
    failure_counts := fun _ => 0
    last_failure_time := fun _ => 0
    cache := fun _ => none
    metrics := fun _ => metrics_init }

/-- `get_metrics`: returns the metrics map. -/
def get_metrics (s : RouterState) : String → Metrics :=
  s.metrics

/-- `_update_metrics` on a single endpoint's record. -/
def update_metrics (m : Metrics) (latency : ℚ) (success : Bool) : Metrics :=
  let m := { m with
    request_count := m.request_count + 1
    total_latency := m.total_latency + latency }
  let m :=
    if success then { m with success_count := m.success_count + 1 }
    else { m with error_count := m.error_count + 1 }
  if m.request_count > 0 then
    { m with average_latency := m.total_latency / (m.request_count : ℚ) }
  else m

/-- The candidate set of `_select_endpoint`: endpoints whose circuit is not
`"open"` and whose name is not excluded. -/
def activeEndpoints (endpoints : List EndpointConfig) (circuit : String → CircuitState)
    (exclude_names : List String) : List EndpointConfig :=
  endpoints.filter fun ep =>
    decide (circuit ep.name ≠ CircuitState.«open» ∧ ep.name ∉ exclude_names)

/-- Sum of the weights of a candidate list. -/
def weightSum (l : List EndpointConfig) : Nat :=
  (l.map (·.weight)).sum

/-- The accumulation walk of `_select_endpoint`: return the first endpoint whose
cumulative weight reaches the drawn `selection`. -/
def weighted_walk (selection : ℚ) : List EndpointConfig → ℚ → Option EndpointConfig
  | [], _ => none
  | ep :: rest, current =>
    let current := current + (ep.weight : ℚ)
    if current ≥ selection then some ep else weighted_walk selection rest current

/-- `_select_endpoint`. The random source is explicit: `draw` models
`random.uniform(0, total_weight)` (so `0 ≤ draw ≤ total_weight`), and
`choice` models `random.choice` on the candidate list (reduced modulo the
list length so every index denotes a candidate). -/
def select_endpoint (endpoints : List EndpointConfig) (circuit : String → CircuitState)
    (exclude_names : List String) (draw : ℚ) (choice : Nat) : Option EndpointConfig :=
  let active := activeEndpoints endpoints circuit exclude_names
  if active.isEmpty then none
  else if weightSum active = 0 then active.get? (choice % active.length)
  else weighted_walk draw active 0

/-- `_trip_circuit`: open the circuit and record `last_failure_time = time.time()`. -/
def trip_circuit (now : ℚ) (s : RouterState) (endpoint_name : String) : RouterState :=
  { s with
    circuit_states := setEntry s.circuit_states endpoint_name CircuitState.«open»
    last_failure_time := setEntry s.last_failure_time endpoint_name now }

/-- `_reset_circuit`: only when the circuit is not `"closed"`, close it and
reset its failure count to 0. -/
def reset_circuit (s : RouterState) (endpoint_name : String) : RouterState :=
  if s.circuit_states endpoint_name ≠ CircuitState.closed then
    { s with
      circuit_states := setEntry s.circuit_states endpoint_name CircuitState.closed
      failure_counts := setEntry s.failure_counts endpoint_name 0 }
  else s

/-- `_handle_failure`: closed → increment the count and trip at the threshold;
half-open → trip immediately; open → nothing. -/
def handle_failure (cfg : AIModelRouterConfig) (now : ℚ) (endpoint_name : String)
    (s : RouterState) : RouterState :=
  if s.circuit_states endpoint_name = CircuitState.closed then
    let s := { s with
      failure_counts :=
        setEntry s.failure_counts endpoint_name (s.failure_counts endpoint_name + 1) }
    if s.failure_counts endpoint_name ≥ cfg.circuit_breaker.failure_threshold then
      trip_circuit now s endpoint_name
    else s
  else if s.circuit_states endpoint_name = CircuitState.halfOpen then
    trip_circuit now s endpoint_name
  else s

/-- Outcome of one transport invocation (`_make_http_request` /
`_make_websocket_request`): a JSON response, or any raised exception. -/
inductive TransportResult where
  | success (response : Response)
  | failure
deriving DecidableEq, Repr

/-- The external world of one `inference` call: the outcome and observed
latency of the k-th transport invocation, `time.time()` readings, and the
random draws feeding `_select_endpoint` at each loop iteration. -/
structure Env where
  transport : Nat → TransportResult
  latency : Nat → ℚ
  now : Nat → ℚ
  draw : Nat → ℚ
  choice : Nat → Nat

/-- `{"error": "All endpoints are unavailable."}`. -/
def unavailableError : Response := [("error", "All endpoints are unavailable.")]

/-- `{"error": "Request failed after multiple retries."}`. -/
def retriesExhaustedError : Response := [("error", "Request failed after multiple retries.")]

/-- What an `inference` call returns, together with the final router state and
the observable trace: the endpoints the transport was invoked on (in order),
the backoff sleeps performed, and whether the call ended in the success
branch (cache hit or successful transport) — `ok` is a ghost observation,
the source signals this by which dict it returns. -/
structure DispatchOutcome where
  result : Response
  state : RouterState
  transport_calls : List String
  sleeps : List ℚ
  ok : Bool

/-- `next((ep for ep in self.endpoints if ep.name == metadata["endpoint_pref"]), None)`
guarded by `metadata and "endpoint_pref" in metadata`. -/
def findPref (endpoints : List EndpointConfig) (metadata : Option Metadata) :
    Option EndpointConfig :=
  match metadata with
  | none => none
  | some m =>
    match m.lookup "endpoint_pref" with
    | none => none
    | some p => endpoints.find? fun ep => ep.name = p

/-- One iteration's endpoint choice: on the first iteration (`attempts == 0`) a
`metadata["endpoint_pref"]` naming a known endpoint is used directly (with no
circuit-state check); otherwise `_select_endpoint` is asked with the
endpoints already tried this call excluded. -/
def choose_endpoint (cfg : AIModelRouterConfig) (env : Env) (metadata : Option Metadata)
    (attempts : Nat) (tried : List String) (s : RouterState) : Option EndpointConfig :=
  match (if attempts = 0 then findPref cfg.endpoints metadata else none) with
  | some ep => some ep
  | none =>
    select_endpoint cfg.endpoints s.circuit_states tried
      (env.draw attempts) (env.choice attempts)

/-- The `while attempts < max_attempts` loop of `inference`. `fuel` is the
number of remaining iterations (`max_attempts - attempts`); `tried` is
`tried_endpoints`; `callLog` records the transport invocations made so far
(its length indexes the oracles); `sleeps` the backoff sleeps performed. -/
def dispatchLoop (cfg : AIModelRouterConfig) (env : Env) (metadata : Option Metadata)
    (cacheKey : CacheKey) :
    Nat → Nat → List String → List String → List ℚ → RouterState → DispatchOutcome
  | _, 0, _, callLog, sleeps, s =>
    { result := retriesExhaustedError, state := s, transport_calls := callLog
      sleeps := sleeps, ok := false }
  | attempts, fuel + 1, tried, callLog, sleeps, s =>
    match choose_endpoint cfg env metadata attempts tried s with
    | none =>
      { result := unavailableError, state := s, transport_calls := callLog
        sleeps := sleeps, ok := false }
    | some ep =>
      let tried := tried ++ [ep.name]
      let k := callLog.length
      match env.transport k with
      | TransportResult.success resp =>
        let s := { s with
          metrics := setEntry s.metrics ep.name
            (update_metrics (s.metrics ep.name) (env.latency k) true) }
        let s := reset_circuit s ep.name
        let s := { s with
          cache := fun key =>
            if key = cacheKey then some ⟨env.now k, resp⟩ else s.cache key }
        { result := resp, state := s, transport_calls := callLog ++ [ep.name]
          sleeps := sleeps, ok := true }
      | TransportResult.failure =>
        let s := { s with
          metrics := setEntry s.metrics ep.name
            (update_metrics (s.metrics ep.name) (env.latency k) false) }
        let s := handle_failure cfg (env.now k) ep.name s
        let attempts := attempts + 1
        let sleeps :=
          if attempts < cfg.retry_config.max_attempts then
            sleeps ++ [cfg.retry_config.backoff_factor ^ attempts]
          else sleeps
        dispatchLoop cfg env metadata cacheKey attempts fuel tried
          (callLog ++ [ep.name]) sleeps s

/-- `inference`: cache lookup, then the dispatch loop with `attempts = 0`. -/
def inference (cfg : AIModelRouterConfig) (env : Env) (s : RouterState)
    (model_type : String) (data : List Nat) (metadata : Option Metadata) :
    DispatchOutcome :=
  let cacheKey := get_cache_key model_type data metadata
  match s.cache cacheKey with
  | some entry =>
    { result := entry.response, state := s, transport_calls := [], sleeps := []
      ok := true }
  | none =>
    dispatchLoop cfg env metadata cacheKey 0 cfg.retry_config.max_attempts [] [] [] s

/-- One endpoint's step of the `health_check` sweep: time-based
open → half-open promotion, then an active probe of half-open circuits. -/
def health_step (cfg : AIModelRouterConfig) (now : ℚ) (probe : String → Bool)
    (s : RouterState) (ep : EndpointConfig) : RouterState :=
  let s :=
    if s.circuit_states ep.name = CircuitState.«open» ∧
        now - s.last_failure_time ep.name > (cfg.circuit_breaker.recovery_timeout : ℚ) then
      { s with circuit_states := setEntry s.circuit_states ep.name CircuitState.halfOpen }
    else s
  if s.circuit_states ep.name = CircuitState.halfOpen then
    if probe ep.name then reset_circuit s ep.name else trip_circuit now s ep.name
  else s

/-- The `{endpoint_name: {state, failures}}` snapshot `health_check` returns. -/
structure HealthReport where
  state : CircuitState
  failures : Nat
deriving DecidableEq, Repr

/-- `health_check`: sweep every configured endpoint, then report each one's
final circuit state and failure count. The probe outcome oracle models
`_check_endpoint_health` (network I/O). -/
def health_check (cfg : AIModelRouterConfig) (now : ℚ) (probe : String → Bool)
    (s : RouterState) : RouterState × List (String × HealthReport) :=
  let s' := cfg.endpoints.foldl (health_step cfg now probe) s
  (s', cfg.endpoints.map fun ep =>
    (ep.name, ⟨s'.circuit_states ep.name, s'.failure_counts ep.name⟩))

/-! ### Concrete test fixtures (configurations, oracles and states used to
instantiate the theorems and to exhibit counterexamples). -/

/-- A single HTTP endpoint `"a"` with weight 100 (spec §8 scenario). -/
def ep8 : EndpointConfig :=
  { name := "a", url := "https://api.example.com/v1", protocol := Protocol.http
    weight := 100, timeout := 5 }

/-- One endpoint, `failure_threshold = 2`, default retry policy (spec §8 scenario). -/
def cfg8 : AIModelRouterConfig :=
  { endpoints := [ep8]
    retry_config := {}
    circuit_breaker := { failure_threshold := 2, recovery_timeout := 30 } }

/-- An environment whose transport always fails. -/
def envFail : Env :=
  { transport := fun _ => TransportResult.failure, latency := fun _ => 1
    now := fun _ => 0, draw := fun _ => 10, choice := fun _ => 0 }

/-- An environment whose transport always succeeds with `{"result": "ok"}`. -/
def envOk : Env :=
  { transport := fun _ => TransportResult.success [("result", "ok")]
    latency := fun _ => 1, now := fun _ => 7, draw := fun _ => 10, choice := fun _ => 0 }

/-- An environment whose transport always succeeds with `{"result": "other"}`. -/
def envOk2 : Env :=
  { transport := fun _ => TransportResult.success [("result", "other")]
    latency := fun _ => 1, now := fun _ => 9, draw := fun _ => 10, choice := fun _ => 0 }

/-- A state in which endpoint `"a"` has an OPEN circuit. -/
def sOpen8 : RouterState :=
  { init_state with
    circuit_states := setEntry init_state.circuit_states "a" CircuitState.«open» }

/-- A state in which endpoint `"a"` is OPEN with 2 recorded failures at time 0. -/
def sTripped8 : RouterState :=
  { init_state with
    circuit_states := setEntry init_state.circuit_states "a" CircuitState.«open»
    failure_counts := setEntry init_state.failure_counts "a" 2 }

/-- Two endpoints for the retry scenario: `"a"` (weight 70) and `"b"` (weight 30). -/
def cfg9 : AIModelRouterConfig :=
  { endpoints :=
      [{ name := "a", url := "https://api.example.com/v1", protocol := Protocol.http
         weight := 70, timeout := 5 },
       { name := "b", url := "wss://ws.example.com/v1", protocol := Protocol.websocket
         weight := 30, timeout := 3 }] }

/-- First transport invocation fails, every later one succeeds with
`{"result": "ok"}` (spec §8 retry scenario). -/
def env9 : Env :=
  { transport := fun k =>
      if k = 0 then TransportResult.failure else TransportResult.success [("result", "ok")]
    latency := fun _ => 1, now := fun _ => 0, draw := fun _ => 10, choice := fun _ => 0 }

/-- Three endpoints of weight 1 each, used to exhaust all three attempts. -/
def cfg3 : AIModelRouterConfig :=
  { endpoints :=
      [{ name := "a", url := "u1", protocol := Protocol.http, weight := 1, timeout := 5 },
       { name := "b", url := "u2", protocol := Protocol.http, weight := 1, timeout := 5 },
       { name := "c", url := "u3", protocol := Protocol.http, weight := 1, timeout := 5 }] }

/-- Environment drawing 1 from the weighted selection and always failing. -/
def env3 : Env :=
  { transport := fun _ => TransportResult.failure, latency := fun _ => 1
    now := fun _ => 0, draw := fun _ => 1, choice := fun _ => 0 }

/-- Weight-0 endpoint for the Selector fallback scenario. -/
def epA : EndpointConfig :=
  { name := "A", url := "uA", protocol := Protocol.http, weight := 0, timeout := 1 }

/-- Weight-10 endpoint for the Selector fallback scenario. -/
def epB : EndpointConfig :=
  { name := "B", url := "uB", protocol := Protocol.http, weight := 10, timeout := 1 }

/-- The two metrics invariants of the data model: the counters add up, and the
average is the total divided by the request count whenever requests exist. -/
def MetricsInv (m : Metrics) : Prop :=
  m.request_count = m.success_count + m.error_count ∧
  (0 < m.request_count → m.average_latency = m.total_latency / (m.request_count : ℚ))

instance (m : Metrics) : Decidable (MetricsInv m) := by
  unfold MetricsInv
  exact inferInstance

/-! ### Basic lemmas about the state dictionaries and circuit operations. -/

theorem setEntry_same {α : Type} (f : String → α) (name : String) (v : α) :
    setEntry f name v name = v := by
  simp [setEntry]

theorem setEntry_other {α : Type} (f : String → α) (name : String) (v : α)
    {m : String} (h : m ≠ name) : setEntry f name v m = f m := by
  simp [setEntry, h]

theorem trip_circuit_cache (now : ℚ) (s : RouterState) (n : String) :
    (trip_circuit now s n).cache = s.cache := rfl

theorem reset_circuit_cache (s : RouterState) (n : String) :
    (reset_circuit s n).cache = s.cache := by
  unfold reset_circuit
  split <;> rfl

theorem handle_failure_cache (cfg : AIModelRouterConfig) (now : ℚ) (n : String)
    (s : RouterState) : (handle_failure cfg now n s).cache = s.cache := by
  unfold handle_failure
  dsimp only
  split_ifs <;> rfl

theorem trip_circuit_metrics (now : ℚ) (s : RouterState) (n : String) :
    (trip_circuit now s n).metrics = s.metrics := rfl

theorem reset_circuit_metrics (s : RouterState) (n : String) :
    (reset_circuit s n).metrics = s.metrics := by
  unfold reset_circuit
  split <;> rfl

theorem handle_failure_metrics (cfg : AIModelRouterConfig) (now : ℚ) (n : String)
    (s : RouterState) : (handle_failure cfg now n s).metrics = s.metrics := by
  unfold handle_failure
  dsimp only
  split_ifs <;> rfl

/-- C10: recording a dispatch failure for an endpoint whose circuit is already
OPEN (reachable via the `endpoint_pref` shortcut, which dispatches regardless
of circuit state) leaves the router state unchanged: `_handle_failure` takes
neither the CLOSED nor the HALF_OPEN branch, so the circuit stays OPEN and
both `consecutive_failures` and `last_failure_time` are untouched. -/
theorem C10_open_failure_noop (cfg : AIModelRouterConfig) (now : ℚ) (name : String)
    (s : RouterState) (h : s.circuit_states name = CircuitState.«open») :
    handle_failure cfg now name s = s := by
  simp [handle_failure, h]

/-- Witness for C10: a concrete OPEN endpoint, failure handling is the identity. -/
theorem C10_open_failure_noop_witness :
    handle_failure cfg8 0 "a" sOpen8 = sOpen8 :=
  C10_open_failure_noop cfg8 0 "a" sOpen8 (by decide)

/-- C1 (amended): `_reset_circuit` always leaves the circuit CLOSED, and resets
`consecutive_failures` to 0 exactly when the prior state was not CLOSED; when
the circuit is already CLOSED the call is a no-op, so a nonzero failure count
survives a successful dispatch. -/
theorem C1_success_reset (s : RouterState) (name : String) :
    (reset_circuit s name).circuit_states name = CircuitState.closed ∧
    (s.circuit_states name ≠ CircuitState.closed →
      (reset_circuit s name).failure_counts name = 0) ∧
    (s.circuit_states name = CircuitState.closed → reset_circuit s name = s) := by
  by_cases h : s.circuit_states name = CircuitState.closed
  · refine ⟨?_, fun hc => absurd h hc, fun _ => ?_⟩ <;> simp [reset_circuit, h]
  · refine ⟨?_, fun _ => ?_, fun hc => absurd hc h⟩ <;>
      simp [reset_circuit, h, setEntry_same]

/-- Witness for C1 (amended), on a state with a half-open circuit. -/
theorem C1_success_reset_witness :
    (reset_circuit sTripped8 "a").circuit_states "a" = CircuitState.closed ∧
    (sTripped8.circuit_states "a" ≠ CircuitState.closed →
      (reset_circuit sTripped8 "a").failure_counts "a" = 0) ∧
    (sTripped8.circuit_states "a" = CircuitState.closed →
      reset_circuit sTripped8 "a" = sTripped8) :=
  C1_success_reset sTripped8 "a"

/-- Counterexample to C1 as stated: starting from the initial router state, one
failing call leaves endpoint `"a"` CLOSED with `consecutive_failures = 1`; a
subsequent successful dispatch to `"a"` returns the provider response but
leaves the count at 1, not 0 — the reset is skipped when the circuit is
already CLOSED. -/
theorem C1_counterexample :
    (inference cfg8 envFail init_state "stt" [0] none).state.circuit_states "a" =
      CircuitState.closed ∧
    (inference cfg8 envFail init_state "stt" [0] none).state.failure_counts "a" = 1 ∧
    (inference cfg8 envOk
        (inference cfg8 envFail init_state "stt" [0] none).state "stt" [0] none).ok = true ∧
    (inference cfg8 envOk
        (inference cfg8 envFail init_state "stt" [0] none).state "stt" [0]
        none).transport_calls = ["a"] ∧
    (inference cfg8 envOk
        (inference cfg8 envFail init_state "stt" [0] none).state "stt" [0]
        none).state.failure_counts "a" = 1 := by
  with_unfolding_all decide

/-! ### Selector lemmas. -/

theorem mem_activeEndpoints {endpoints : List EndpointConfig} {circuit : String → CircuitState}
    {exclude_names : List String} {ep : EndpointConfig} :
    ep ∈ activeEndpoints endpoints circuit exclude_names ↔
      ep ∈ endpoints ∧ circuit ep.name ≠ CircuitState.«open» ∧ ep.name ∉ exclude_names := by
  simp [activeEndpoints, List.mem_filter]

theorem weightSum_cons (e : EndpointConfig) (l : List EndpointConfig) :
    weightSum (e :: l) = e.weight + weightSum l := by
  simp [weightSum]

theorem weighted_walk_mem {selection : ℚ} :
    ∀ {l : List EndpointConfig} {current : ℚ} {ep : EndpointConfig},
      weighted_walk selection l current = some ep → ep ∈ l := by
  intro l
  induction l with
  | nil => intro current ep h; simp [weighted_walk] at h
  | cons e rest ih =>
    intro current ep h
    simp only [weighted_walk] at h
    split at h
    · cases h; exact List.mem_cons_self _ _
    · exact List.mem_cons_of_mem _ (ih h)

theorem weighted_walk_isSome {selection : ℚ} :
    ∀ {l : List EndpointConfig} {current : ℚ}, l ≠ [] →
      selection ≤ current + (weightSum l : ℚ) →
      (weighted_walk selection l current).isSome = true := by
  intro l
  induction l with
  | nil => intro current h _; exact absurd rfl h
  | cons e rest ih =>
    intro current _ hle
    simp only [weighted_walk]
    split
    · rfl
    case isFalse hlt =>
      cases rest with
      | nil =>
        exact absurd (by simpa [weightSum] using hle) hlt
      | cons f rest2 =>
        refine ih (by simp) ?_
        have hw : (weightSum (e :: f :: rest2) : ℚ) =
            (e.weight : ℚ) + (weightSum (f :: rest2) : ℚ) := by
          rw [weightSum_cons]; push_cast; ring
        rw [hw] at hle
        linarith

theorem weighted_walk_weight_zero {selection : ℚ} :
    ∀ {l : List EndpointConfig} {current : ℚ} {ep : EndpointConfig},
      weighted_walk selection l current = some ep → ep.weight = 0 →
      selection ≤ current ∧ l.head? = some ep := by
  intro l
  induction l with
  | nil => intro current ep h _; simp [weighted_walk] at h
  | cons e rest ih =>
    intro current ep h hw
    simp only [weighted_walk] at h
    split at h
    case isTrue hge =>
      cases h
      refine ⟨?_, rfl⟩
      rw [hw] at hge
      simpa using hge
    case isFalse hlt =>
      obtain ⟨hsel, _⟩ := ih h hw
      exact absurd hsel hlt

theorem select_endpoint_mem {endpoints : List EndpointConfig} {circuit : String → CircuitState}
    {exclude_names : List String} {draw : ℚ} {choice : Nat} {ep : EndpointConfig}
    (h : select_endpoint endpoints circuit exclude_names draw choice = some ep) :
    ep ∈ activeEndpoints endpoints circuit exclude_names := by
  unfold select_endpoint at h
  dsimp only at h
  split at h
  · exact absurd h (by simp)
  · split at h
    · exact List.get?_mem h
    · exact weighted_walk_mem h

theorem select_endpoint_eq_none_iff {endpoints : List EndpointConfig}
    {circuit : String → CircuitState} {exclude_names : List String} {draw : ℚ} {choice : Nat}
    (hle : draw ≤ (weightSum (activeEndpoints endpoints circuit exclude_names) : ℚ)) :
    select_endpoint endpoints circuit exclude_names draw choice = none ↔
      activeEndpoints endpoints circuit exclude_names = [] := by
  unfold select_endpoint
  dsimp only
  by_cases hempty : (activeEndpoints endpoints circuit exclude_names).isEmpty = true
  · have h1 : activeEndpoints endpoints circuit exclude_names = [] :=
      List.isEmpty_iff.mp hempty
    simp [hempty, h1]
  · rw [if_neg hempty]
    have hne : activeEndpoints endpoints circuit exclude_names ≠ [] := by
      simpa [List.isEmpty_iff] using hempty
    constructor
    · intro h
      exfalso
      split at h
      · have hlen : 0 < (activeEndpoints endpoints circuit exclude_names).length :=
          List.length_pos.mpr hne
        rw [List.get?_eq_none] at h
        exact absurd h (by simpa using Nat.mod_lt _ hlen)
      · have hsome := @weighted_walk_isSome draw
          (activeEndpoints endpoints circuit exclude_names) 0 hne (by simpa using hle)
        rw [h] at hsome
        simp at hsome
    · intro h
      exact absurd h hne

theorem select_endpoint_weight_zero {endpoints : List EndpointConfig}
    {circuit : String → CircuitState} {exclude_names : List String} {draw : ℚ} {choice : Nat}
    {ep : EndpointConfig} (h0 : 0 ≤ draw)
    (hw : weightSum (activeEndpoints endpoints circuit exclude_names) ≠ 0)
    (h : select_endpoint endpoints circuit exclude_names draw choice = some ep)
    (hep : ep.weight = 0) :
    draw = 0 ∧ (activeEndpoints endpoints circuit exclude_names).head? = some ep := by
  unfold select_endpoint at h
  dsimp only at h
  by_cases hempty : (activeEndpoints endpoints circuit exclude_names).isEmpty = true
  · rw [if_pos hempty] at h
    exact absurd h (by simp)
  · rw [if_neg hempty, if_neg hw] at h
    obtain ⟨hsel, hhead⟩ := weighted_walk_weight_zero h hep
    refine ⟨le_antisymm (by simpa using hsel) h0, hhead⟩

theorem select_endpoint_not_open {endpoints : List EndpointConfig}
    {circuit : String → CircuitState} {exclude_names : List String} {draw : ℚ}
    {choice : Nat} {ep : EndpointConfig} {name : String}
    (hopen : circuit name = CircuitState.«open»)
    (h : select_endpoint endpoints circuit exclude_names draw choice = some ep) :
    ep.name ≠ name := by
  intro heq
  have hmem := (mem_activeEndpoints.mp (select_endpoint_mem h)).2.1
  rw [heq, hopen] at hmem
  exact hmem rfl

/-- C3 (amended): with the uniform draw in `[0, total_weight]`, the Selector
returns none exactly when no endpoint has a non-OPEN circuit and a
non-excluded name; any returned endpoint is such a candidate (and there is no
division anywhere — a zero total weight takes the uniform-choice branch); but
a weight-0 candidate can also be returned by the *weighted* path, exactly when
the draw is 0 and it is the first candidate. -/
theorem C3_selector (endpoints : List EndpointConfig) (circuit : String → CircuitState)
    (exclude_names : List String) (draw : ℚ) (choice : Nat)
    (h0 : 0 ≤ draw)
    (hle : draw ≤ (weightSum (activeEndpoints endpoints circuit exclude_names) : ℚ)) :
    (select_endpoint endpoints circuit exclude_names draw choice = none ↔
      activeEndpoints endpoints circuit exclude_names = []) ∧
    (∀ ep, select_endpoint endpoints circuit exclude_names draw choice = some ep →
      ep ∈ endpoints ∧ circuit ep.name ≠ CircuitState.«open» ∧ ep.name ∉ exclude_names) ∧
    (∀ ep, select_endpoint endpoints circuit exclude_names draw choice = some ep →
      ep.weight = 0 → weightSum (activeEndpoints endpoints circuit exclude_names) ≠ 0 →
      draw = 0 ∧ (activeEndpoints endpoints circuit exclude_names).head? = some ep) :=
  ⟨select_endpoint_eq_none_iff hle,
   fun _ h => mem_activeEndpoints.mp (select_endpoint_mem h),
   fun _ h hep hw => select_endpoint_weight_zero h0 hw h hep⟩

/-- Witness for C3 (amended) at the two-endpoint candidate list `{A: 0, B: 10}`
with draw 5. -/
theorem C3_selector_witness :
    (select_endpoint [epA, epB] (fun _ => CircuitState.closed) [] 5 0 = none ↔
      activeEndpoints [epA, epB] (fun _ => CircuitState.closed) [] = []) ∧
    (∀ ep, select_endpoint [epA, epB] (fun _ => CircuitState.closed) [] 5 0 = some ep →
      ep ∈ [epA, epB] ∧ (fun _ => CircuitState.closed) ep.name ≠ CircuitState.«open» ∧
        ep.name ∉ ([] : List String)) ∧
    (∀ ep, select_endpoint [epA, epB] (fun _ => CircuitState.closed) [] 5 0 = some ep →
      ep.weight = 0 →
      weightSum (activeEndpoints [epA, epB] (fun _ => CircuitState.closed) []) ≠ 0 →
      (5 : ℚ) = 0 ∧
        (activeEndpoints [epA, epB] (fun _ => CircuitState.closed) []).head? = some ep) :=
  C3_selector [epA, epB] (fun _ => CircuitState.closed) [] 5 0
    (by with_unfolding_all decide) (by with_unfolding_all decide)

/-- Counterexample to C3 as stated: among candidates `{A: weight 0, B: weight 10}`
the total weight is 10 ≠ 0, yet the weighted path returns the weight-0
endpoint A when `random.uniform(0, 10)` draws exactly 0 (the first cumulative
weight, 0, already satisfies `current_weight >= selection`) — so a weight-0
candidate can be returned outside the uniform-random fallback. -/
theorem C3_counterexample :
    select_endpoint [epA, epB] (fun _ => CircuitState.closed) [] 0 0 = some epA ∧
    epA.weight = 0 ∧
    weightSum (activeEndpoints [epA, epB] (fun _ => CircuitState.closed) []) = 10 := by
  with_unfolding_all decide

/-- C5: on a failed dispatch, a CLOSED circuit gets its `consecutive_failures`
incremented, transitioning to OPEN with `last_failure_time` recorded exactly
when the incremented count reaches `failure_threshold`; a HALF_OPEN circuit
trips straight back to OPEN; and an endpoint whose circuit is OPEN afterwards
is never returned by the Selector. -/
theorem C5_failure_handling (cfg : AIModelRouterConfig) (now : ℚ) (name : String)
    (s : RouterState) :
    (s.circuit_states name = CircuitState.closed →
      (handle_failure cfg now name s).failure_counts name = s.failure_counts name + 1 ∧
      (cfg.circuit_breaker.failure_threshold ≤ s.failure_counts name + 1 →
        (handle_failure cfg now name s).circuit_states name = CircuitState.«open» ∧
        (handle_failure cfg now name s).last_failure_time name = now) ∧
      (s.failure_counts name + 1 < cfg.circuit_breaker.failure_threshold →
        (handle_failure cfg now name s).circuit_states name = CircuitState.closed)) ∧
    (s.circuit_states name = CircuitState.halfOpen →
      (handle_failure cfg now name s).circuit_states name = CircuitState.«open» ∧
      (handle_failure cfg now name s).last_failure_time name = now) ∧
    (∀ endpoints exclude_names draw choice ep,
      (handle_failure cfg now name s).circuit_states name = CircuitState.«open» →
      select_endpoint endpoints (handle_failure cfg now name s).circuit_states
        exclude_names draw choice = some ep →
      ep.name ≠ name) := by
  refine ⟨?_, ?_, fun endpoints exclude_names draw choice ep hopen hsel =>
    select_endpoint_not_open hopen hsel⟩
  · intro hc
    by_cases hth : cfg.circuit_breaker.failure_threshold ≤ s.failure_counts name + 1
    · refine ⟨?_, fun _ => ?_, fun hlt => absurd hth (by omega)⟩ <;>
        simp [handle_failure, trip_circuit, hc, setEntry_same, hth]
    · refine ⟨?_, fun h => absurd h hth, fun _ => ?_⟩ <;>
        simp [handle_failure, trip_circuit, hc, setEntry_same, hth]
  · intro hc
    have hnc : s.circuit_states name ≠ CircuitState.closed := by rw [hc]; intro h; cases h
    constructor <;>
      simp [handle_failure, trip_circuit, if_neg hnc, hc, setEntry_same]

/-- Witness for C5 at a concrete CLOSED circuit one failure below the threshold. -/
theorem C5_failure_handling_witness :
    ((inference cfg8 envFail init_state "stt" [0] none).state.circuit_states "a" =
        CircuitState.closed →
      (handle_failure cfg8 0 "a"
        (inference cfg8 envFail init_state "stt" [0] none).state).failure_counts "a" =
        (inference cfg8 envFail init_state "stt" [0] none).state.failure_counts "a" + 1 ∧
      (cfg8.circuit_breaker.failure_threshold ≤
          (inference cfg8 envFail init_state "stt" [0] none).state.failure_counts "a" + 1 →
        (handle_failure cfg8 0 "a"
          (inference cfg8 envFail init_state "stt" [0] none).state).circuit_states "a" =
          CircuitState.«open» ∧
        (handle_failure cfg8 0 "a"
          (inference cfg8 envFail init_state "stt" [0] none).state).last_failure_time "a" = 0) ∧
      ((inference cfg8 envFail init_state "stt" [0] none).state.failure_counts "a" + 1 <
          cfg8.circuit_breaker.failure_threshold →
        (handle_failure cfg8 0 "a"
          (inference cfg8 envFail init_state "stt" [0] none).state).circuit_states "a" =
          CircuitState.closed)) ∧
    ((inference cfg8 envFail init_state "stt" [0] none).state.circuit_states "a" =
        CircuitState.halfOpen →
      (handle_failure cfg8 0 "a"
        (inference cfg8 envFail init_state "stt" [0] none).state).circuit_states "a" =
        CircuitState.«open» ∧
      (handle_failure cfg8 0 "a"
        (inference cfg8 envFail init_state "stt" [0] none).state).last_failure_time "a" = 0) ∧
    (∀ endpoints exclude_names draw choice ep,
      (handle_failure cfg8 0 "a"
        (inference cfg8 envFail init_state "stt" [0] none).state).circuit_states "a" =
        CircuitState.«open» →
      select_endpoint endpoints
        (handle_failure cfg8 0 "a"
          (inference cfg8 envFail init_state "stt" [0] none).state).circuit_states
        exclude_names draw choice = some ep →
      ep.name ≠ "a") :=
  C5_failure_handling cfg8 0 "a" (inference cfg8 envFail init_state "stt" [0] none).state

/-! ### Dispatch-loop lemmas. -/

theorem metricsInv_update {m : Metrics} (latency : ℚ) (b : Bool) (h : MetricsInv m) :
    MetricsInv (update_metrics m latency b) := by
  obtain ⟨h1, _⟩ := h
  cases b <;>
    exact ⟨by simp [update_metrics]; omega, fun _ => by simp [update_metrics]⟩

theorem metricsInv_setEntry_update (s : RouterState) (name epname : String) (l : ℚ) (b : Bool)
    (h : MetricsInv (s.metrics name)) :
    MetricsInv (setEntry s.metrics epname (update_metrics (s.metrics epname) l b) name) := by
  by_cases he : name = epname
  · subst he
    rw [setEntry_same]
    exact metricsInv_update _ _ h
  · rw [setEntry_other _ _ _ he]
    exact h

theorem dispatchLoop_cache_of_not_ok (cfg : AIModelRouterConfig) (env : Env)
    (metadata : Option Metadata) (cacheKey : CacheKey) :
    ∀ (fuel attempts : Nat) (tried callLog : List String) (sleeps : List ℚ) (s : RouterState),
      (dispatchLoop cfg env metadata cacheKey attempts fuel tried callLog sleeps s).ok = false →
      (dispatchLoop cfg env metadata cacheKey attempts fuel tried callLog sleeps s).state.cache
        = s.cache := by
  intro fuel
  induction fuel with
  | zero => intro attempts tried callLog sleeps s _; rfl
  | succ fuel ih =>
    intro attempts tried callLog sleeps s hok
    rw [dispatchLoop] at hok ⊢
    cases hch : choose_endpoint cfg env metadata attempts tried s with
    | none => rfl
    | some ep =>
      simp only [hch] at hok
      dsimp only at hok ⊢
      cases htr : env.transport callLog.length with
      | success resp =>
        rw [htr] at hok
        dsimp only at hok
        exact absurd hok (by simp)
      | failure =>
        rw [htr] at hok
        dsimp only at hok ⊢
        rw [ih _ _ _ _ _ hok]
        exact handle_failure_cache cfg (env.now callLog.length) ep.name _

theorem dispatchLoop_cache_of_ok (cfg : AIModelRouterConfig) (env : Env)
    (metadata : Option Metadata) (cacheKey : CacheKey) :
    ∀ (fuel attempts : Nat) (tried callLog : List String) (sleeps : List ℚ) (s : RouterState),
      (dispatchLoop cfg env metadata cacheKey attempts fuel tried callLog sleeps s).ok = true →
      ∃ ts,
        (dispatchLoop cfg env metadata cacheKey attempts fuel tried callLog sleeps s).state.cache
          cacheKey =
        some ⟨ts,
          (dispatchLoop cfg env metadata cacheKey attempts fuel tried callLog sleeps s).result⟩ := by
  intro fuel
  induction fuel with
  | zero => intro attempts tried callLog sleeps s hok; exact absurd hok (by simp [dispatchLoop])
  | succ fuel ih =>
    intro attempts tried callLog sleeps s hok
    rw [dispatchLoop] at hok ⊢
    cases hch : choose_endpoint cfg env metadata attempts tried s with
    | none =>
      simp only [hch] at hok
      exact absurd hok (by simp)
    | some ep =>
      simp only [hch] at hok
      dsimp only at hok ⊢
      cases htr : env.transport callLog.length with
      | success resp =>
        refine ⟨env.now callLog.length, ?_⟩
        dsimp only
        simp
      | failure =>
        rw [htr] at hok
        exact ih _ _ _ _ _ hok

theorem dispatchLoop_metricsInv (cfg : AIModelRouterConfig) (env : Env)
    (metadata : Option Metadata) (cacheKey : CacheKey) (name : String) :
    ∀ (fuel attempts : Nat) (tried callLog : List String) (sleeps : List ℚ) (s : RouterState),
      MetricsInv (s.metrics name) →
      MetricsInv
        ((dispatchLoop cfg env metadata cacheKey attempts fuel tried callLog sleeps s).state.metrics
          name) := by
  intro fuel
  induction fuel with
  | zero => intro attempts tried callLog sleeps s h; exact h
  | succ fuel ih =>
    intro attempts tried callLog sleeps s h
    rw [dispatchLoop]
    cases hch : choose_endpoint cfg env metadata attempts tried s with
    | none => exact h
    | some ep =>
      dsimp only
      cases htr : env.transport callLog.length with
      | success resp =>
        dsimp only
        rw [reset_circuit_metrics]
        exact metricsInv_setEntry_update s name ep.name _ true h
      | failure =>
        refine ih _ _ _ _ _ ?_
        rw [handle_failure_metrics]
        exact metricsInv_setEntry_update s name ep.name _ false h

theorem dispatchLoop_callLog_grows (cfg : AIModelRouterConfig) (env : Env)
    (metadata : Option Metadata) (cacheKey : CacheKey) :
    ∀ (fuel attempts : Nat) (tried callLog : List String) (sleeps : List ℚ) (s : RouterState),
      ∃ suffix,
        (dispatchLoop cfg env metadata cacheKey attempts fuel tried callLog sleeps
          s).transport_calls = callLog ++ suffix := by
  intro fuel
  induction fuel with
  | zero => intro attempts tried callLog sleeps s; exact ⟨[], by simp [dispatchLoop]⟩
  | succ fuel ih =>
    intro attempts tried callLog sleeps s
    rw [dispatchLoop]
    cases hch : choose_endpoint cfg env metadata attempts tried s with
    | none => exact ⟨[], by simp⟩
    | some ep =>
      dsimp only
      cases htr : env.transport callLog.length with
      | success resp => exact ⟨[ep.name], rfl⟩
      | failure =>
        obtain ⟨t, ht⟩ := ih (attempts + 1) (tried ++ [ep.name]) (callLog ++ [ep.name])
          (if attempts + 1 < cfg.retry_config.max_attempts then
            sleeps ++ [cfg.retry_config.backoff_factor ^ (attempts + 1)]
          else sleeps)
          (handle_failure cfg (env.now callLog.length) ep.name
            { s with
              metrics := setEntry s.metrics ep.name
                (update_metrics (s.metrics ep.name) (env.latency callLog.length) false) })
        exact ⟨[ep.name] ++ t, by rw [ht, List.append_assoc]⟩

theorem dispatchLoop_result_cases (cfg : AIModelRouterConfig) (env : Env)
    (metadata : Option Metadata) (cacheKey : CacheKey) :
    ∀ (fuel attempts : Nat) (tried callLog : List String) (sleeps : List ℚ) (s : RouterState),
      ((dispatchLoop cfg env metadata cacheKey attempts fuel tried callLog sleeps s).result =
          unavailableError ∧
        (dispatchLoop cfg env metadata cacheKey attempts fuel tried callLog sleeps s).ok =
          false) ∨
      ((dispatchLoop cfg env metadata cacheKey attempts fuel tried callLog sleeps s).result =
          retriesExhaustedError ∧
        (dispatchLoop cfg env metadata cacheKey attempts fuel tried callLog sleeps s).ok =
          false) ∨
      ((dispatchLoop cfg env metadata cacheKey attempts fuel tried callLog sleeps s).ok = true ∧
        ∃ k, env.transport k = TransportResult.success
          (dispatchLoop cfg env metadata cacheKey attempts fuel tried callLog sleeps s).result) := by
  intro fuel
  induction fuel with
  | zero => intro attempts tried callLog sleeps s; right; left; exact ⟨rfl, rfl⟩
  | succ fuel ih =>
    intro attempts tried callLog sleeps s
    rw [dispatchLoop]
    cases hch : choose_endpoint cfg env metadata attempts tried s with
    | none => left; exact ⟨rfl, rfl⟩
    | some ep =>
      dsimp only
      cases htr : env.transport callLog.length with
      | success resp =>
        right; right
        exact ⟨rfl, callLog.length, by rw [htr]⟩
      | failure =>
        exact ih _ _ _ _ _

theorem dispatchLoop_sleeps (cfg : AIModelRouterConfig) (env : Env)
    (metadata : Option Metadata) (cacheKey : CacheKey) :
    ∀ (fuel attempts : Nat) (tried callLog : List String) (sleeps : List ℚ) (s : RouterState),
      attempts + fuel ≤ cfg.retry_config.max_attempts →
      ∃ n,
        (dispatchLoop cfg env metadata cacheKey attempts fuel tried callLog sleeps s).sleeps =
          sleeps ++ (List.range n).map
            (fun k => cfg.retry_config.backoff_factor ^ (attempts + 1 + k)) := by
  intro fuel
  induction fuel with
  | zero => intro attempts tried callLog sleeps s _; exact ⟨0, by simp [dispatchLoop]⟩
  | succ fuel ih =>
    intro attempts tried callLog sleeps s hcon
    rw [dispatchLoop]
    cases hch : choose_endpoint cfg env metadata attempts tried s with
    | none => exact ⟨0, by simp⟩
    | some ep =>
      dsimp only
      cases htr : env.transport callLog.length with
      | success resp => exact ⟨0, by simp⟩
      | failure =>
        by_cases hlt : attempts + 1 < cfg.retry_config.max_attempts
        · rw [if_pos hlt]
          obtain ⟨m, hm⟩ := ih (attempts + 1) (tried ++ [ep.name]) (callLog ++ [ep.name])
            (sleeps ++ [cfg.retry_config.backoff_factor ^ (attempts + 1)])
            (handle_failure cfg (env.now callLog.length) ep.name
              { s with
                metrics := setEntry s.metrics ep.name
                  (update_metrics (s.metrics ep.name) (env.latency callLog.length) false) })
            (by omega)
          refine ⟨m + 1, ?_⟩
          rw [hm, List.append_assoc]
          congr 1
          rw [List.range_succ_eq_map, List.map_cons, List.map_map, List.singleton_append]
          congr 1
          refine List.map_congr_left fun a _ => ?_
          simp only [Function.comp_apply]
          congr 1
          omega
        · have hfuel : fuel = 0 := by omega
          subst hfuel
          rw [if_neg hlt]
          exact ⟨0, by simp [dispatchLoop]⟩

/-- C4: the metrics invariants — `request_count == success_count + error_count`,
and `average_latency == total_latency / request_count` whenever
`request_count > 0` — hold of every endpoint's entry in `get_metrics` at
construction, are preserved by every single `_update_metrics` recording, and
are preserved by every `inference` call (hence by any interleaving of
successful and failed dispatches). -/
theorem C4_metrics_invariants :
    (∀ name, MetricsInv (get_metrics init_state name)) ∧
    (∀ (m : Metrics) (latency : ℚ) (success : Bool),
      MetricsInv m → MetricsInv (update_metrics m latency success)) ∧
    (∀ (cfg : AIModelRouterConfig) (env : Env) (s : RouterState) (mt : String)
        (d : List Nat) (md : Option Metadata) (name : String),
      MetricsInv (get_metrics s name) →
      MetricsInv (get_metrics (inference cfg env s mt d md).state name)) := by
  refine ⟨fun name => ⟨rfl, fun h => absurd h (Nat.lt_irrefl 0)⟩,
    fun m l b h => metricsInv_update l b h,
    fun cfg env s mt d md name h => ?_⟩
  unfold inference
  dsimp only
  cases hc : s.cache (get_cache_key mt d md) with
  | some e => exact h
  | none =>
    exact dispatchLoop_metricsInv cfg env md (get_cache_key mt d md) name
      cfg.retry_config.max_attempts 0 [] [] [] s h

/-- Witness for C4: the invariants hold for endpoint `"a"` after a concrete
dispatch sequence from the initial state. -/
theorem C4_metrics_invariants_witness :
    MetricsInv (get_metrics (inference cfg9 env9 init_state "stt" [0] none).state "a") :=
  C4_metrics_invariants.2.2 cfg9 env9 init_state "stt" [0] none "a"
    (C4_metrics_invariants.1 "a")

/-- C7: the cache is written only by the success branch (a call that does not
succeed leaves the cache map untouched); a successful call leaves an entry at
the request's fingerprint holding exactly the returned response; and a second
`inference` with identical `(model_type, data, metadata)` then returns that
response verbatim, with no transport invocation, no sleep and no state change
— regardless of the second call's environment (no freshness check). -/
theorem C7_response_cache (cfg : AIModelRouterConfig) (env env2 : Env) (s : RouterState)
    (mt : String) (d : List Nat) (md : Option Metadata) :
    ((inference cfg env s mt d md).ok = false →
      (inference cfg env s mt d md).state.cache = s.cache) ∧
    ((inference cfg env s mt d md).ok = true →
      ∃ ts, (inference cfg env s mt d md).state.cache (get_cache_key mt d md) =
        some { timestamp := ts, response := (inference cfg env s mt d md).result }) ∧
    ((inference cfg env s mt d md).ok = true →
      (inference cfg env2 (inference cfg env s mt d md).state mt d md).result =
        (inference cfg env s mt d md).result ∧
      (inference cfg env2 (inference cfg env s mt d md).state mt d md).transport_calls = [] ∧
      (inference cfg env2 (inference cfg env s mt d md).state mt d md).sleeps = [] ∧
      (inference cfg env2 (inference cfg env s mt d md).state mt d md).state =
        (inference cfg env s mt d md).state) := by
  have hsecond : ∀ (s' : RouterState) (ts : ℚ) (r : Response),
      s'.cache (get_cache_key mt d md) = some { timestamp := ts, response := r } →
      inference cfg env2 s' mt d md =
        { result := r, state := s', transport_calls := [], sleeps := [], ok := true } := by
    intro s' ts r hc
    unfold inference
    dsimp only
    rw [hc]
  cases hc : s.cache (get_cache_key mt d md) with
  | some e =>
    have heq : inference cfg env s mt d md =
        { result := e.response, state := s, transport_calls := [], sleeps := []
          ok := true } := by
      unfold inference
      dsimp only
      rw [hc]
    refine ⟨fun h => ?_, fun _ => ⟨e.timestamp, ?_⟩, fun _ => ?_⟩
    · rw [heq] at h
      simp at h
    · rw [heq]
      exact hc
    · rw [heq]
      rw [hsecond s e.timestamp e.response hc]
      exact ⟨rfl, rfl, rfl, rfl⟩
  | none =>
    have heq : inference cfg env s mt d md =
        dispatchLoop cfg env md (get_cache_key mt d md) 0
          cfg.retry_config.max_attempts [] [] [] s := by
      unfold inference
      dsimp only
      rw [hc]
    refine ⟨fun h => ?_, fun h => ?_, fun h => ?_⟩
    · rw [heq] at h ⊢
      exact dispatchLoop_cache_of_not_ok cfg env md _ _ _ _ _ _ _ h
    · rw [heq] at h ⊢
      exact dispatchLoop_cache_of_ok cfg env md _ _ _ _ _ _ _ h
    · rw [heq] at h ⊢
      obtain ⟨ts, hcache⟩ := dispatchLoop_cache_of_ok cfg env md _ _ _ _ _ _ _ h
      rw [hsecond _ ts _ hcache]
      exact ⟨rfl, rfl, rfl, rfl⟩

/-- Witness for C7: after a concrete successful call, the repeat call returns
the same response without any transport invocation. -/
theorem C7_response_cache_witness :
    (inference cfg8 envOk2 (inference cfg8 envOk init_state "stt" [0] none).state
        "stt" [0] none).result =
      (inference cfg8 envOk init_state "stt" [0] none).result ∧
    (inference cfg8 envOk2 (inference cfg8 envOk init_state "stt" [0] none).state
        "stt" [0] none).transport_calls = [] :=
  ⟨((C7_response_cache cfg8 envOk envOk2 init_state "stt" [0] none).2.2
      (by with_unfolding_all decide)).1,
   ((C7_response_cache cfg8 envOk envOk2 init_state "stt" [0] none).2.2
      (by with_unfolding_all decide)).2.1⟩

/-- C8: `inference` always returns a typed result: the total-unavailability
error, the retries-exhausted error, or a success (a cached or freshly obtained
provider response). In the spec's scenario (one endpoint, threshold 2,
always-failing payload) the circuit is OPEN after two calls, and the third
call returns `{"error": "All endpoints are unavailable."}` with no transport
invocation and no backoff sleep; with three endpoints and three failing
attempts the retries-exhausted error is returned. -/
theorem C8_typed_results :
    (∀ (cfg : AIModelRouterConfig) (env : Env) (s : RouterState) (mt : String)
        (d : List Nat) (md : Option Metadata),
      ((inference cfg env s mt d md).result = unavailableError ∧
        (inference cfg env s mt d md).ok = false) ∨
      ((inference cfg env s mt d md).result = retriesExhaustedError ∧
        (inference cfg env s mt d md).ok = false) ∨
      ((inference cfg env s mt d md).ok = true ∧
        ((∃ e, s.cache (get_cache_key mt d md) = some e ∧
            (inference cfg env s mt d md).result = e.response) ∨
          ∃ k, env.transport k =
            TransportResult.success (inference cfg env s mt d md).result))) ∧
    ((inference cfg8 envFail (inference cfg8 envFail init_state "stt" [0] none).state
        "stt" [0] none).state.circuit_states "a" = CircuitState.«open» ∧
      (inference cfg8 envFail
        (inference cfg8 envFail (inference cfg8 envFail init_state "stt" [0] none).state
          "stt" [0] none).state "stt" [0] none).result = unavailableError ∧
      (inference cfg8 envFail
        (inference cfg8 envFail (inference cfg8 envFail init_state "stt" [0] none).state
          "stt" [0] none).state "stt" [0] none).transport_calls = [] ∧
      (inference cfg8 envFail
        (inference cfg8 envFail (inference cfg8 envFail init_state "stt" [0] none).state
          "stt" [0] none).state "stt" [0] none).sleeps = [] ∧
      (inference cfg3 env3 init_state "stt" [0] none).result = retriesExhaustedError ∧
      (inference cfg3 env3 init_state "stt" [0] none).transport_calls = ["a", "b", "c"]) := by
  constructor
  · intro cfg env s mt d md
    unfold inference
    dsimp only
    cases hc : s.cache (get_cache_key mt d md) with
    | some e =>
      right; right
      exact ⟨rfl, Or.inl ⟨e, rfl, rfl⟩⟩
    | none =>
      rcases dispatchLoop_result_cases cfg env md (get_cache_key mt d md)
        cfg.retry_config.max_attempts 0 [] [] [] s with h | h | h
      · left; exact h
      · right; left; exact h
      · right; right; exact ⟨h.1, Or.inr h.2⟩
  · with_unfolding_all decide

/-- C9: the backoff sleeps of any `inference` call are exactly
`backoff_factor ^ 1, backoff_factor ^ 2, …` in order (the attempt counter
starts at 1, and a sleep happens only when attempts remain); in the spec's
scenario (`max_attempts = 3`, first attempt fails, second succeeds) the call
returns `{"result": "ok"}`, the transport is invoked exactly twice, and
exactly one sleep of `backoff_factor ^ 1` occurs. -/
theorem C9_backoff :
    (∀ (cfg : AIModelRouterConfig) (env : Env) (s : RouterState) (mt : String)
        (d : List Nat) (md : Option Metadata),
      (inference cfg env s mt d md).sleeps =
        (List.range (inference cfg env s mt d md).sleeps.length).map
          (fun k => cfg.retry_config.backoff_factor ^ (k + 1))) ∧
    ((inference cfg9 env9 init_state "stt" [0] none).result = [("result", "ok")] ∧
      (inference cfg9 env9 init_state "stt" [0] none).transport_calls.length = 2 ∧
      (inference cfg9 env9 init_state "stt" [0] none).sleeps =
        [cfg9.retry_config.backoff_factor ^ 1]) := by
  constructor
  · intro cfg env s mt d md
    unfold inference
    dsimp only
    cases hc : s.cache (get_cache_key mt d md) with
    | some e => rfl
    | none =>
      obtain ⟨n, hn⟩ := dispatchLoop_sleeps cfg env md (get_cache_key mt d md)
        cfg.retry_config.max_attempts 0 [] [] [] s (by omega)
      rw [hn]
      simp only [List.nil_append, List.length_map, List.length_range]
      refine List.map_congr_left fun a _ => ?_
      congr 1
      omega
  · with_unfolding_all decide

/-- C2 (amended): on the first dispatch attempt, `metadata["endpoint_pref"]`
naming a *known* endpoint is used directly — regardless of that endpoint's
circuit state (the source checks only `ep.name == metadata["endpoint_pref"]`);
only when the preference is absent or names no known endpoint is the Selector
consulted (with nothing yet excluded), and the chosen endpoint — or the
total-unavailability return — is the Selector's answer. -/
theorem C2_endpoint_pref (cfg : AIModelRouterConfig) (env : Env) (s : RouterState)
    (mt : String) (d : List Nat) (md : Option Metadata)
    (hmax : 1 ≤ cfg.retry_config.max_attempts)
    (hcache : s.cache (get_cache_key mt d md) = none) :
    (∀ ep, findPref cfg.endpoints md = some ep →
      (inference cfg env s mt d md).transport_calls.head? = some ep.name) ∧
    (findPref cfg.endpoints md = none →
      (select_endpoint cfg.endpoints s.circuit_states [] (env.draw 0) (env.choice 0) = none →
        (inference cfg env s mt d md).result = unavailableError ∧
        (inference cfg env s mt d md).transport_calls = []) ∧
      (∀ ep,
        select_endpoint cfg.endpoints s.circuit_states [] (env.draw 0) (env.choice 0) =
          some ep →
        (inference cfg env s mt d md).transport_calls.head? = some ep.name)) := by
  obtain ⟨m, hm⟩ : ∃ m, cfg.retry_config.max_attempts = m + 1 :=
    ⟨cfg.retry_config.max_attempts - 1, by omega⟩
  have hinf : inference cfg env s mt d md =
      dispatchLoop cfg env md (get_cache_key mt d md) 0 (m + 1) [] [] [] s := by
    unfold inference
    dsimp only
    rw [hcache, hm]
  rw [hinf, dispatchLoop]
  constructor
  · intro ep hpref
    have hch : choose_endpoint cfg env md 0 [] s = some ep := by
      unfold choose_endpoint
      simp [hpref]
    rw [hch]
    dsimp only
    cases htr : env.transport (List.length ([] : List String)) with
    | success resp => rfl
    | failure =>
      obtain ⟨t, ht⟩ := dispatchLoop_callLog_grows cfg env md (get_cache_key mt d md) m 1
        ([] ++ [ep.name]) ([] ++ [ep.name]) _ _
      rw [ht]
      rfl
  · intro hpref
    have hch : choose_endpoint cfg env md 0 [] s =
        select_endpoint cfg.endpoints s.circuit_states [] (env.draw 0) (env.choice 0) := by
      unfold choose_endpoint
      simp [hpref]
    constructor
    · intro hsel
      rw [hch, hsel]
      exact ⟨rfl, rfl⟩
    · intro ep hsel
      rw [hch, hsel]
      dsimp only
      cases htr : env.transport (List.length ([] : List String)) with
      | success resp => rfl
      | failure =>
        obtain ⟨t, ht⟩ := dispatchLoop_callLog_grows cfg env md (get_cache_key mt d md) m 1
          ([] ++ [ep.name]) ([] ++ [ep.name]) _ _
        rw [ht]
        rfl

/-- Witness for C2 (amended) at a concrete preference for the known endpoint `"a"`. -/
theorem C2_endpoint_pref_witness :
    (∀ ep, findPref cfg8.endpoints (some [("endpoint_pref", "a")]) = some ep →
      (inference cfg8 envOk sOpen8 "stt" [0]
        (some [("endpoint_pref", "a")])).transport_calls.head? = some ep.name) ∧
    (findPref cfg8.endpoints (some [("endpoint_pref", "a")]) = none →
      (select_endpoint cfg8.endpoints sOpen8.circuit_states [] (envOk.draw 0)
          (envOk.choice 0) = none →
        (inference cfg8 envOk sOpen8 "stt" [0]
          (some [("endpoint_pref", "a")])).result = unavailableError ∧
        (inference cfg8 envOk sOpen8 "stt" [0]
          (some [("endpoint_pref", "a")])).transport_calls = []) ∧
      (∀ ep,
        select_endpoint cfg8.endpoints sOpen8.circuit_states [] (envOk.draw 0)
          (envOk.choice 0) = some ep →
        (inference cfg8 envOk sOpen8 "stt" [0]
          (some [("endpoint_pref", "a")])).transport_calls.head? = some ep.name)) :=
  C2_endpoint_pref cfg8 envOk sOpen8 "stt" [0] (some [("endpoint_pref", "a")])
    (by decide) (by with_unfolding_all decide)

/-- Counterexample to C2 as stated: endpoint `"a"` has an OPEN circuit, yet a
first-attempt `endpoint_pref` naming it dispatches to it directly — the
transport is contacted on an OPEN endpoint via the preference shortcut, where
the claim requires the Selector (which here would have found no candidate and
returned the unavailability error without any transport contact). -/
theorem C2_counterexample :
    sOpen8.circuit_states "a" = CircuitState.«open» ∧
    (inference cfg8 envOk sOpen8 "stt" [0]
      (some [("endpoint_pref", "a")])).transport_calls = ["a"] ∧
    (inference cfg8 envOk sOpen8 "stt" [0]
      (some [("endpoint_pref", "a")])).result = [("result", "ok")] ∧
    select_endpoint cfg8.endpoints sOpen8.circuit_states [] (envOk.draw 0)
      (envOk.choice 0) = none := by
  with_unfolding_all decide

/-! ### Health-check lemmas. -/

theorem health_step_frame (cfg : AIModelRouterConfig) (now : ℚ) (probe : String → Bool)
    (s : RouterState) (ep : EndpointConfig) (n : String) (h : n ≠ ep.name) :
    (health_step cfg now probe s ep).circuit_states n = s.circuit_states n ∧
    (health_step cfg now probe s ep).failure_counts n = s.failure_counts n ∧
    (health_step cfg now probe s ep).last_failure_time n = s.last_failure_time n := by
  unfold health_step reset_circuit trip_circuit
  dsimp only
  split_ifs <;> simp [setEntry, h]

theorem health_fold_frame (cfg : AIModelRouterConfig) (now : ℚ) (probe : String → Bool) :
    ∀ (l : List EndpointConfig) (s : RouterState) (n : String),
      n ∉ l.map (·.name) →
      ((l.foldl (health_step cfg now probe) s).circuit_states n = s.circuit_states n ∧
        (l.foldl (health_step cfg now probe) s).failure_counts n = s.failure_counts n ∧
        (l.foldl (health_step cfg now probe) s).last_failure_time n =
          s.last_failure_time n) := by
  intro l
  induction l with
  | nil => intro s n _; exact ⟨rfl, rfl, rfl⟩
  | cons e rest ih =>
    intro s n hn
    simp only [List.map_cons, List.mem_cons, not_or] at hn
    obtain ⟨hne, hrest⟩ := hn
    have hstep := health_step_frame cfg now probe s e n hne
    have hfold := ih (health_step cfg now probe s e) n hrest
    rw [List.foldl_cons]
    exact ⟨hfold.1.trans hstep.1, hfold.2.1.trans hstep.2.1, hfold.2.2.trans hstep.2.2⟩

theorem health_step_self (cfg : AIModelRouterConfig) (now : ℚ) (probe : String → Bool)
    (s : RouterState) (ep : EndpointConfig) :
    (((s.circuit_states ep.name = CircuitState.«open» ∧
        now - s.last_failure_time ep.name > (cfg.circuit_breaker.recovery_timeout : ℚ)) ∨
       s.circuit_states ep.name = CircuitState.halfOpen) →
      (probe ep.name = true →
        (health_step cfg now probe s ep).circuit_states ep.name = CircuitState.closed ∧
        (health_step cfg now probe s ep).failure_counts ep.name = 0) ∧
      (probe ep.name = false →
        (health_step cfg now probe s ep).circuit_states ep.name = CircuitState.«open» ∧
        (health_step cfg now probe s ep).last_failure_time ep.name = now)) ∧
    ((s.circuit_states ep.name = CircuitState.«open» ∧
        ¬ now - s.last_failure_time ep.name > (cfg.circuit_breaker.recovery_timeout : ℚ)) →
      health_step cfg now probe s ep = s) ∧
    (s.circuit_states ep.name = CircuitState.closed →
      health_step cfg now probe s ep = s) := by
  refine ⟨?_, ?_, ?_⟩
  · intro hcond
    constructor
    · intro hp
      rcases hcond with ⟨ho, ht⟩ | hh
      · constructor <;>
          simp [health_step, reset_circuit, trip_circuit, ho, ht, hp, setEntry]
      · constructor <;>
          simp [health_step, reset_circuit, trip_circuit, hh, hp, setEntry]
    · intro hp
      rcases hcond with ⟨ho, ht⟩ | hh
      · constructor <;>
          simp [health_step, reset_circuit, trip_circuit, ho, ht, hp, setEntry]
      · constructor <;>
          simp [health_step, reset_circuit, trip_circuit, hh, hp, setEntry]
  · rintro ⟨ho, hnt⟩
    simp [health_step, ho, hnt]
  · intro hc
    simp [health_step, hc]

/-- C6: with distinct endpoint names, a `health_check` sweep treats each
configured endpoint as follows — an endpoint that is OPEN with
`now - last_failure_time > recovery_timeout`, or already HALF_OPEN, is probed:
probe success closes its circuit and resets its failures, probe failure
reopens it refreshing `last_failure_time`; an OPEN endpoint whose timeout has
not elapsed, and a CLOSED endpoint, are untouched; and the returned snapshot
maps the endpoint's name to its final `{state, failures}`. -/
theorem C6_health_check (cfg : AIModelRouterConfig) (now : ℚ) (probe : String → Bool)
    (s : RouterState) (ep : EndpointConfig)
    (hnodup : (cfg.endpoints.map (·.name)).Nodup) (hmem : ep ∈ cfg.endpoints) :
    (((s.circuit_states ep.name = CircuitState.«open» ∧
        now - s.last_failure_time ep.name > (cfg.circuit_breaker.recovery_timeout : ℚ)) ∨
       s.circuit_states ep.name = CircuitState.halfOpen) →
      (probe ep.name = true →
        (health_check cfg now probe s).1.circuit_states ep.name = CircuitState.closed ∧
        (health_check cfg now probe s).1.failure_counts ep.name = 0) ∧
      (probe ep.name = false →
        (health_check cfg now probe s).1.circuit_states ep.name = CircuitState.«open» ∧
        (health_check cfg now probe s).1.last_failure_time ep.name = now)) ∧
    ((s.circuit_states ep.name = CircuitState.«open» ∧
        ¬ now - s.last_failure_time ep.name > (cfg.circuit_breaker.recovery_timeout : ℚ)) →
      (health_check cfg now probe s).1.circuit_states ep.name = CircuitState.«open» ∧
      (health_check cfg now probe s).1.failure_counts ep.name = s.failure_counts ep.name ∧
      (health_check cfg now probe s).1.last_failure_time ep.name =
        s.last_failure_time ep.name) ∧
    (s.circuit_states ep.name = CircuitState.closed →
      (health_check cfg now probe s).1.circuit_states ep.name = CircuitState.closed ∧
      (health_check cfg now probe s).1.failure_counts ep.name = s.failure_counts ep.name ∧
      (health_check cfg now probe s).1.last_failure_time ep.name =
        s.last_failure_time ep.name) ∧
    (ep.name, HealthReport.mk ((health_check cfg now probe s).1.circuit_states ep.name)
        ((health_check cfg now probe s).1.failure_counts ep.name)) ∈
      (health_check cfg now probe s).2 := by
  obtain ⟨l1, l2, hsplit⟩ := List.append_of_mem hmem
  rw [hsplit, List.map_append, List.map_cons, List.nodup_append] at hnodup
  obtain ⟨hndA, hndB, hdisj⟩ := hnodup
  have hn1 : ep.name ∉ l1.map (·.name) := fun hx => hdisj hx (List.mem_cons_self _ _)
  have hn2 : ep.name ∉ l2.map (·.name) := (List.nodup_cons.mp hndB).1
  have hfold : (health_check cfg now probe s).1 =
      List.foldl (health_step cfg now probe)
        (health_step cfg now probe (List.foldl (health_step cfg now probe) s l1) ep) l2 := by
    unfold health_check
    dsimp only
    rw [hsplit, List.foldl_append, List.foldl_cons]
  obtain ⟨hA1, hA2, hA3⟩ := health_fold_frame cfg now probe l1 s ep.name hn1
  obtain ⟨hB1, hB2, hB3⟩ := health_fold_frame cfg now probe l2
    (health_step cfg now probe (List.foldl (health_step cfg now probe) s l1) ep) ep.name hn2
  have hself := health_step_self cfg now probe
    (List.foldl (health_step cfg now probe) s l1) ep
  have hF1 : (health_check cfg now probe s).1.circuit_states ep.name =
      (health_step cfg now probe (List.foldl (health_step cfg now probe) s l1)
        ep).circuit_states ep.name := by rw [hfold]; exact hB1
  have hF2 : (health_check cfg now probe s).1.failure_counts ep.name =
      (health_step cfg now probe (List.foldl (health_step cfg now probe) s l1)
        ep).failure_counts ep.name := by rw [hfold]; exact hB2
  have hF3 : (health_check cfg now probe s).1.last_failure_time ep.name =
      (health_step cfg now probe (List.foldl (health_step cfg now probe) s l1)
        ep).last_failure_time ep.name := by rw [hfold]; exact hB3
  refine ⟨?_, ?_, ?_, ?_⟩
  · intro hcond
    have hcond' :
        ((List.foldl (health_step cfg now probe) s l1).circuit_states ep.name =
            CircuitState.«open» ∧
          now - (List.foldl (health_step cfg now probe) s l1).last_failure_time ep.name >
            (cfg.circuit_breaker.recovery_timeout : ℚ)) ∨
        (List.foldl (health_step cfg now probe) s l1).circuit_states ep.name =
          CircuitState.halfOpen := by
      rcases hcond with ⟨ho, ht⟩ | hh
      · exact Or.inl ⟨hA1.trans ho, by rw [hA3]; exact ht⟩
      · exact Or.inr (hA1.trans hh)
    have hprobe := hself.1 hcond'
    constructor
    · intro hp
      obtain ⟨hc, hz⟩ := hprobe.1 hp
      exact ⟨hF1.trans hc, hF2.trans hz⟩
    · intro hp
      obtain ⟨hc, hl⟩ := hprobe.2 hp
      exact ⟨hF1.trans hc, hF3.trans hl⟩
  · rintro ⟨ho, hnt⟩
    have heq := hself.2.1 ⟨hA1.trans ho, by rw [hA3]; exact hnt⟩
    refine ⟨?_, ?_, ?_⟩
    · rw [hF1, heq, hA1]; exact ho
    · rw [hF2, heq, hA2]
    · rw [hF3, heq, hA3]
  · intro hc
    have heq := hself.2.2 (hA1.trans hc)
    refine ⟨?_, ?_, ?_⟩
    · rw [hF1, heq, hA1]; exact hc
    · rw [hF2, heq, hA2]
    · rw [hF3, heq, hA3]
  · exact List.mem_map_of_mem _ hmem

/-- Witness for C6: a concrete tripped endpoint past its recovery timeout, with
a succeeding probe. -/
theorem C6_health_check_witness :
    (((sTripped8.circuit_states ep8.name = CircuitState.«open» ∧
        31 - sTripped8.last_failure_time ep8.name >
          (cfg8.circuit_breaker.recovery_timeout : ℚ)) ∨
       sTripped8.circuit_states ep8.name = CircuitState.halfOpen) →
      ((fun _ => true) ep8.name = true →
        (health_check cfg8 31 (fun _ => true) sTripped8).1.circuit_states ep8.name =
          CircuitState.closed ∧
        (health_check cfg8 31 (fun _ => true) sTripped8).1.failure_counts ep8.name = 0) ∧
      ((fun _ => true) ep8.name = false →
        (health_check cfg8 31 (fun _ => true) sTripped8).1.circuit_states ep8.name =
          CircuitState.«open» ∧
        (health_check cfg8 31 (fun _ => true) sTripped8).1.last_failure_time ep8.name = 31)) ∧
    ((sTripped8.circuit_states ep8.name = CircuitState.«open» ∧
        ¬ 31 - sTripped8.last_failure_time ep8.name >
          (cfg8.circuit_breaker.recovery_timeout : ℚ)) →
      (health_check cfg8 31 (fun _ => true) sTripped8).1.circuit_states ep8.name =
        CircuitState.«open» ∧
      (health_check cfg8 31 (fun _ => true) sTripped8).1.failure_counts ep8.name =
        sTripped8.failure_counts ep8.name ∧
      (health_check cfg8 31 (fun _ => true) sTripped8).1.last_failure_time ep8.name =
        sTripped8.last_failure_time ep8.name) ∧
    (sTripped8.circuit_states ep8.name = CircuitState.closed →
      (health_check cfg8 31 (fun _ => true) sTripped8).1.circuit_states ep8.name =
        CircuitState.closed ∧
      (health_check cfg8 31 (fun _ => true) sTripped8).1.failure_counts ep8.name =
        sTripped8.failure_counts ep8.name ∧
      (health_check cfg8 31 (fun _ => true) sTripped8).1.last_failure_time ep8.name =
        sTripped8.last_failure_time ep8.name) ∧
    (ep8.name,
      HealthReport.mk
        ((health_check cfg8 31 (fun _ => true) sTripped8).1.circuit_states ep8.name)
        ((health_check cfg8 31 (fun _ => true) sTripped8).1.failure_counts ep8.name)) ∈
      (health_check cfg8 31 (fun _ => true) sTripped8).2 :=
  C6_health_check cfg8 31 (fun _ => true) sTripped8 ep8
    (by with_unfolding_all decide) (by with_unfolding_all decide)

end ModelRouter
